import Mathlib

/-
Verification development for the hl7-fhir-ehr patient/medication CRUD service.

The embedding models `src/app/controlador/PatientCrud.py` (repository layer)
and the HTTP handlers of `src/app/app.py`.  MongoDB collections are modelled
as lists of (ObjectId string, document) pairs in insertion order; Python
exceptions are modelled with `Except String`, each repository function being a
`...Try` body (the code inside the `try:` block, where any failure point is an
`Except.error`) wrapped by the catch-all `except` clause of the source.
Timestamps (`datetime.now()`) are modelled as a `Nat` parameter, and the
ObjectId generated by the MongoDB driver for an insert as a `freshId : String`
parameter.
-/

namespace HL7

/-- An identifier entry of a FHIR patient document: a (system, value) pair. -/
structure Identifier where
  system : String
  value : String
deriving DecidableEq, Repr

/-- A name entry of a patient document: the list of given parts and an optional
family part; `none` models the `family` key being absent from the stored
document. -/
structure HumanName where
  given : List String
  family : Option String
deriving DecidableEq, Repr

/-- The FHIR patient fields that the CRUD layer reads (`identifier`, `name`);
other patient attributes play no role in `PatientCrud.py` and are elided. -/
structure PatientDoc where
  identifier : List Identifier
  name : List HumanName
deriving DecidableEq, Repr

/-- A stored patient document: the validated patient plus the `createdAt` and
`updatedAt` metadata added by `Writepatients`. -/
structure StoredPatient where
  doc : PatientDoc
  createdAt : Nat
  updatedAt : Nat
deriving DecidableEq, Repr

/-- A Python value to which `float(...)` is applied in the dispense dict: a
number, a numeric string (parsing to the given rational), or a non-numeric
string. -/
inductive PyVal where
  | num (q : Rat)
  | numStr (q : Rat)
  | str (s : String)
deriving DecidableEq, Repr

/-- Python `float(x)`: numbers and numeric strings coerce, a non-numeric string
raises `ValueError`. -/
def pyFloat : PyVal → Except String Rat
  | .num q => .ok q
  | .numStr q => .ok q
  | .str s => .error ("could not convert string to float: " ++ s)

/-- The medicationsDispense document built by `RegistermedicationsDispense`.
Constant subfields (resourceType, the dosage timing block, the performer actor
type) are elided; the fields the claims are about are kept. -/
structure DispenseDoc where
  status : String
  medicationText : String
  subjectReference : String
  subjectDisplay : String
  whenHandedOver : Nat
  quantityValue : Rat
  quantityUnit : String
  daysSupplyValue : Rat
  performerDisplay : String
  dosageText : String
  noteText : String
  createdAt : Nat
  updatedAt : Nat
deriving DecidableEq, Repr

/-- The two MongoDB collections used by `PatientCrud.py`, as lists of
(ObjectId string, document) pairs in insertion order. -/
structure DB where
  patients : List (String × StoredPatient)
  medications : List (String × DispenseDoc)
deriving DecidableEq, Repr

/-- Hex digit test for ObjectId validation. -/
def isHexDigit (c : Char) : Bool :=
  c.isDigit || ('a' ≤ c && c ≤ 'f') || ('A' ≤ c && c ≤ 'F')

/-- bson `ObjectId(s)` parsing: a 24 character hex string is accepted, anything
else raises `InvalidId`. -/
def validObjectId (s : String) : Bool :=
  s.length == 24 && s.data.all isHexDigit

/-- `find_one` on the patients collection by `_id`: the first match in
insertion order. -/
def findPatientDoc (db : DB) (id : String) : Option (String × StoredPatient) :=
  db.patients.find? (fun p => p.1 == id)

/-- Body of the `try` block of `GetpatientsById`: parse the ObjectId (raising
on a malformed id), look the patient up, and return the status/value pair; a
found document carries its `_id` as a string. -/
def GetpatientsByIdTry (db : DB) (id : String) :
    Except String (String × Option (String × StoredPatient)) :=
  if validObjectId id then
    match findPatientDoc db id with
    | some p => .ok ("success", some p)
    | none => .ok ("notFound", none)
  else
    .error ("invalid ObjectId: " ++ id)

/-- `GetpatientsById` from `PatientCrud.py`: the try body wrapped by the
catch-all that turns any exception into an `error:` status paired with `None`. -/
def GetpatientsById (db : DB) (id : String) :
    String × Option (String × StoredPatient) :=
  match GetpatientsByIdTry db id with
  | .ok r => r
  | .error e => ("error: " ++ e, none)

/-- An inbound patient payload as seen by `patients.model_validate` from the
external fhir.resources library (outside this repository): a payload either
parses to a patient document, whose identifier and name lists `model_dump`
preserves, or is rejected with a message. -/
inductive PatientPayload where
  | valid (doc : PatientDoc)
  | invalid (msg : String)
deriving DecidableEq, Repr

/-- Model of the external `patients.model_validate` + `model_dump` pipeline of
`Writepatients`. -/
def patientsModelValidate : PatientPayload → Except String PatientDoc
  | .valid doc => .ok doc
  | .invalid msg => .error msg

/-- `insert_one` on a collection: raises a duplicate key error when the `_id`
is already present, otherwise appends the document. -/
def insertOne (coll : List (String × α)) (id : String) (doc : α) :
    Except String (List (String × α)) :=
  if coll.any (fun p => p.1 == id) then .error ("duplicate key: " ++ id)
  else .ok (coll ++ [(id, doc)])

/-- Body of the try block of `Writepatients`: FHIR-validate the payload, stamp
`createdAt`/`updatedAt`, insert, and return the new id (`freshId` is the
ObjectId generated by the driver; `if result.inserted_id:` is its truthiness
test). -/
def WritepatientsTry (db : DB) (payload : PatientPayload) (now : Nat)
    (freshId : String) : Except String (String × Option String × DB) :=
  match patientsModelValidate payload with
  | .error e => .error e
  | .ok doc =>
    match insertOne db.patients freshId { doc := doc, createdAt := now, updatedAt := now } with
    | .error e => .error e
    | .ok coll =>
      if freshId == "" then .ok ("errorInserting", none, { db with patients := coll })
      else .ok ("success", some freshId, { db with patients := coll })

/-- `Writepatients` from `PatientCrud.py`: the try body wrapped by the
catch-all mapping any exception to an `errorValidating:` status. -/
def Writepatients (db : DB) (payload : PatientPayload) (now : Nat)
    (freshId : String) : String × Option String × DB :=
  match WritepatientsTry db payload now freshId with
  | .ok r => r
  | .error e => ("errorValidating: " ++ e, none, db)

/-- Body of `GetpatientsByIdentifier`: the `$elemMatch` query on the identifier
list, first match in insertion order. -/
def GetpatientsByIdentifierTry (db : DB) (sys val : String) :
    Except String (String × Option (String × StoredPatient)) :=
  match db.patients.find?
      (fun p => p.2.doc.identifier.any fun i => i.system == sys && i.value == val) with
  | some p => .ok ("success", some p)
  | none => .ok ("notFound", none)

/-- `GetpatientsByIdentifier` from `PatientCrud.py`. -/
def GetpatientsByIdentifier (db : DB) (sys val : String) :
    String × Option (String × StoredPatient) :=
  match GetpatientsByIdentifierTry db sys val with
  | .ok r => r
  | .error e => ("error: " ++ e, none)

/-- The `medications_data` dict received by `RegistermedicationsDispense`;
`none` models an absent key (the code reads every field with `.get` and a
default). -/
structure MedsData where
  medications : Option String
  quantity : Option PyVal
  unit : Option String
  daysSupply : Option PyVal
  performer : Option String
  dosage : Option String
  notes : Option String
deriving DecidableEq, Repr

/-- The subject.display construction of the dispense document: it indexes
`patients['name'][0]['given'][0]` and `patients['name'][0]['family']`, raising
IndexError/KeyError when the stored patient lacks those parts. -/
def buildDisplay (p : PatientDoc) : Except String String :=
  match p.name with
  | [] => .error "list index out of range"
  | n :: _ =>
    match n.given with
    | [] => .error "list index out of range"
    | g :: _ =>
      match n.family with
      | none => .error "KeyError: family"
      | some f => .ok (g ++ " " ++ f)

/-- Body of the try block of `RegistermedicationsDispense`: existence check
(any non-success status of `GetpatientsById`, including a malformed id, yields
`patientsNotFound`), dispense construction with `.get` defaults and `float`
coercions, FHIR validation by the external `medicationsDispense.model_validate`
(modelled as accepting the fully constructed document), and insertion. -/
def RegistermedicationsDispenseTry (db : DB) (pid : String) (d : MedsData)
    (now : Nat) (freshId : String) : Except String (String × Option String × DB) :=
  let found := GetpatientsById db pid
  if found.1 == "success" then
    match found.2 with
    | none => .error "NoneType is not subscriptable"
    | some p =>
      match buildDisplay p.2.doc with
      | .error e => .error e
      | .ok disp =>
        match pyFloat (d.quantity.getD (.num 1)) with
        | .error e => .error e
        | .ok qty =>
          match pyFloat (d.daysSupply.getD (.num 1)) with
          | .error e => .error e
          | .ok ds =>
            let dispense : DispenseDoc :=
              { status := "completed"
                medicationText := d.medications.getD ""
                subjectReference := "patients/" ++ pid
                subjectDisplay := disp
                whenHandedOver := now
                quantityValue := qty
                quantityUnit := d.unit.getD "unit"
                daysSupplyValue := ds
                performerDisplay := d.performer.getD "Unknown"
                dosageText := d.dosage.getD "As prescribed"
                noteText := d.notes.getD ""
                createdAt := now
                updatedAt := now }
            match insertOne db.medications freshId dispense with
            | .error e => .error e
            | .ok coll =>
              if freshId == "" then .ok ("errorInserting", none, { db with medications := coll })
              else .ok ("success", some freshId, { db with medications := coll })
  else
    .ok ("patientsNotFound", none, db)

/-- `RegistermedicationsDispense` from `PatientCrud.py`: the try body wrapped
by the catch-all; on an exception the collections are left unchanged. -/
def RegistermedicationsDispense (db : DB) (pid : String) (d : MedsData)
    (now : Nat) (freshId : String) : String × Option String × DB :=
  match RegistermedicationsDispenseTry db pid d now freshId with
  | .ok r => r
  | .error e => ("error: " ++ e, none, db)

/-- Stable descending insertion, modelling the MongoDB sort on `whenHandedOver`
with direction -1 (most recent first). -/
def insertDesc (m : String × DispenseDoc) :
    List (String × DispenseDoc) → List (String × DispenseDoc)
  | [] => [m]
  | x :: xs =>
    if m.2.whenHandedOver ≥ x.2.whenHandedOver then m :: x :: xs
    else x :: insertDesc m xs

/-- Insertion sort by `whenHandedOver` descending. -/
def sortByWhenDesc : List (String × DispenseDoc) → List (String × DispenseDoc)
  | [] => []
  | x :: xs => insertDesc x (sortByWhenDesc xs)

/-- Body of `Getpatientsmedicationss`: existence check first, then the
`subject.reference` query sorted by `whenHandedOver` descending; `_id` is
already carried as a string and the isoformat rendering of the returned
timestamps is modelled by the timestamp values themselves. -/
def GetpatientsmedicationssTry (db : DB) (pid : String) :
    Except String (String × Option (List (String × DispenseDoc))) :=
  if (GetpatientsById db pid).1 == "success" then
    .ok ("success", some (sortByWhenDesc (db.medications.filter
      (fun m => m.2.subjectReference == "patients/" ++ pid))))
  else
    .ok ("patientsNotFound", none)

/-- `Getpatientsmedicationss` from `PatientCrud.py`. -/
def Getpatientsmedicationss (db : DB) (pid : String) :
    String × Option (List (String × DispenseDoc)) :=
  match GetpatientsmedicationssTry db pid with
  | .ok r => r
  | .error e => ("error: " ++ e, none)

/-- Outcome of an HTTP handler of `app.py`: a successful JSON response with a
status code, an HTTPException raised with a status code, or an unhandled Python
exception that the framework turns into a 500 response. -/
inductive HttpOutcome where
  | ok (code : Nat)
  | httpError (code : Nat)
  | serverFailure (msg : String)
deriving DecidableEq, Repr

/-- The AttributeError message produced by accessing an `HTTP_*` attribute on a
status string. -/
def statusAttrMsg (st attr : String) : String :=
  "AttributeError: str object " ++ st ++ " has no attribute " ++ attr

/-- Attribute access `status.HTTP_*` inside the handlers of `app.py`: after
`status, x = ...` the local name `status` is the repository status string and
shadows the fastapi `status` module, so the access always raises
AttributeError. -/
def statusCodeAttr (st attr : String) : Except String Nat :=
  .error (statusAttrMsg st attr)

/-- The pydantic request model of `POST /patient/{id}/medications`
(`MedicationDispenseCreate` in `app.py`); fastapi rejects requests missing any
non-optional field before the handler runs. -/
structure MedicationDispenseCreate where
  medication : String
  quantity : Rat
  daysSupply : Rat
  dosage : String
  performer : String
  notes : Option String
  timestamp : Option Nat
deriving DecidableEq, Repr

/-- `medication.dict()` as read by the repository layer: the request model uses
the key `medication` while the repository reads `medications`, so that key is
always absent; the `timestamp` entry added by the handler is never read by the
repository and is elided. -/
def medicationDict (m : MedicationDispenseCreate) : MedsData :=
  { medications := none
    quantity := some (.num m.quantity)
    unit := none
    daysSupply := some (.num m.daysSupply)
    performer := some m.performer
    dosage := some m.dosage
    notes := m.notes }

/-- Whether `pre` is an initial segment of `l`. -/
def startsList : List Char → List Char → Bool
  | [], _ => true
  | _ :: _, [] => false
  | n :: ns, h :: hs => n == h && startsList ns hs

/-- Whether `needle` occurs contiguously inside `l`. -/
def subList (needle : List Char) : List Char → Bool
  | [] => needle.isEmpty
  | h :: hs => startsList needle (h :: hs) || subList needle hs

/-- Python substring containment `needle in hay`. -/
def strContains (hay needle : String) : Bool :=
  subList needle.data hay.data

/-- Handler of `POST /patient` (`add_patient` in `app.py`): on success it
returns the new id with the decorator status 201; on any non-success status
every error branch evaluates `status.HTTP_*` on the local status string,
raising AttributeError, and the handler's catch-all then does the same, so the
framework answers with a 500. -/
def add_patient (db : DB) (payload : PatientPayload) (now : Nat)
    (freshId : String) : HttpOutcome × DB :=
  let r := Writepatients db payload now freshId
  if r.1 == "success" then (.ok 201, r.2.2)
  else
    let inner : Except String Nat :=
      if strContains r.1 "errorValidating" then
        statusCodeAttr r.1 "HTTP_422_UNPROCESSABLE_ENTITY"
      else
        statusCodeAttr r.1 "HTTP_500_INTERNAL_SERVER_ERROR"
    match inner with
    | .ok c => (.httpError c, r.2.2)
    | .error _ =>
      match statusCodeAttr r.1 "HTTP_400_BAD_REQUEST" with
      | .ok c => (.httpError c, r.2.2)
      | .error e => (.serverFailure e, r.2.2)

/-- Handler of `POST /patient/{id}/medications` (`add_medication_dispense` in
`app.py`): the repository reports `patientsNotFound` but the handler compares
against `patientNotFound`, and every error branch trips over the shadowed
`status` module. -/
def add_medication_dispense (db : DB) (pid : String)
    (body : MedicationDispenseCreate) (now : Nat) (freshId : String) :
    HttpOutcome × DB :=
  let r := RegistermedicationsDispense db pid (medicationDict body) now freshId
  if r.1 == "success" then (.ok 201, r.2.2)
  else if r.1 == "patientNotFound" then
    match statusCodeAttr r.1 "HTTP_404_NOT_FOUND" with
    | .ok c => (.httpError c, r.2.2)
    | .error e => (.serverFailure e, r.2.2)
  else
    match statusCodeAttr r.1 "HTTP_500_INTERNAL_SERVER_ERROR" with
    | .ok c => (.httpError c, r.2.2)
    | .error e => (.serverFailure e, r.2.2)

/-- Handler of `GET /patient/{id}/medications` (`get_patient_medications` in
`app.py`): same status-string mismatch and shadowing as the dispense handler. -/
def get_patient_medications (db : DB) (pid : String) : HttpOutcome :=
  let r := Getpatientsmedicationss db pid
  if r.1 == "success" then .ok 200
  else if r.1 == "patientNotFound" then
    match statusCodeAttr r.1 "HTTP_404_NOT_FOUND" with
    | .ok c => .httpError c
    | .error e => .serverFailure e
  else
    match statusCodeAttr r.1 "HTTP_500_INTERNAL_SERVER_ERROR" with
    | .ok c => .httpError c
    | .error e => .serverFailure e

/-- Concrete ObjectId strings used by witnesses and counterexamples. -/
def idA : String := "aaaaaaaaaaaaaaaaaaaaaaaa"

def idB : String := "bbbbbbbbbbbbbbbbbbbbbbbb"

def idC : String := "cccccccccccccccccccccccc"

def idD : String := "dddddddddddddddddddddddd"

def idE : String := "eeeeeeeeeeeeeeeeeeeeeeee"

/-- A sample patient document with a document-number identifier and a
well-formed name. -/
def samplePatientDoc : PatientDoc :=
  { identifier := [{ system := "doc", value := "123" }]
    name := [{ given := ["Mario"], family := some "Duarte" }] }

/-- The empty database. -/
def dbEmpty : DB := { patients := [], medications := [] }

/-- A database holding one stored patient (with a well-formed name) at `idC`. -/
def dbC : DB :=
  { patients := [(idC, { doc := samplePatientDoc, createdAt := 0, updatedAt := 0 })]
    medications := [] }

/-- Strings of different lengths are different. -/
theorem ne_of_length_ne {s t : String} (h : s.length ≠ t.length) : s ≠ t :=
  fun he => h (by rw [he])

/-- A string of length 0 is the empty string. -/
theorem eq_empty_of_length_zero {s : String} (h : s.length = 0) : s = "" := by
  cases s with
  | mk d =>
    cases d with
    | nil => rfl
    | cons a b => simp [String.length] at h

/-- A caught-exception status never equals the success status. -/
theorem errStatusNeSuccess (e : String) : "error: " ++ e ≠ "success" := by
  intro h
  have hl := congrArg String.length h
  rw [String.length_append] at hl
  have h7 : ("error: " : String).length = 7 := rfl
  have h7b : ("success" : String).length = 7 := rfl
  rw [h7, h7b] at hl
  have he : e = "" := eq_empty_of_length_zero (by omega)
  rw [he] at h
  exact absurd h (by decide)

/-- A collection in which no key equals `id` reports no key collision. -/
theorem any_key_false {α : Type} (l : List (String × α)) (id : String)
    (h : ∀ p ∈ l, p.1 ≠ id) : (l.any fun p => p.1 == id) = false := by
  rw [List.any_eq_false]
  intro x hx
  simp [beq_eq_false_iff_ne.mpr (h x hx)]

/-- Looking a freshly appended key up finds the appended document when no
earlier document uses the key. -/
theorem find?_append_last {α : Type} (l : List (String × α)) (id : String) (d : α)
    (h : ∀ p ∈ l, p.1 ≠ id) :
    (l ++ [(id, d)]).find? (fun p => p.1 == id) = some (id, d) := by
  induction l with
  | nil => simp [List.find?]
  | cons x xs ih =>
    have hx : (x.1 == id) = false := beq_eq_false_iff_ne.mpr (h x (by simp))
    simpa [List.find?, hx] using ih (fun p hp => h p (by simp [hp]))

/-- The success path of `Writepatients`: with a payload the FHIR validator
accepts and a fresh nonempty generated id, the patient is appended and its id
returned. -/
theorem writepatients_success (db : DB) (doc : PatientDoc) (now : Nat)
    (fid : String) (hfid : fid ≠ "") (hfresh : ∀ p ∈ db.patients, p.1 ≠ fid) :
    Writepatients db (.valid doc) now fid =
      ("success", some fid,
        { db with patients := db.patients ++ [(fid, ⟨doc, now, now⟩)] }) := by
  unfold Writepatients WritepatientsTry patientsModelValidate insertOne
  rw [any_key_false db.patients fid hfresh]
  simp [beq_eq_false_iff_ne.mpr hfid]

/-- C1 counterexample: with the document-number identifier
`{system := "doc", value := "123"}`, two calls of `Writepatients` on the same
payload both succeed, return two distinct ids, and leave two patient documents
in the collection — no dedup-by-identifier happens. -/
theorem c1_counterexample :
    (Writepatients dbEmpty (.valid samplePatientDoc) 0 idA).1 = "success" ∧
    (Writepatients (Writepatients dbEmpty (.valid samplePatientDoc) 0 idA).2.2
        (.valid samplePatientDoc) 0 idB).1 = "success" ∧
    (Writepatients (Writepatients dbEmpty (.valid samplePatientDoc) 0 idA).2.2
        (.valid samplePatientDoc) 0 idB).2.1 ≠
      (Writepatients dbEmpty (.valid samplePatientDoc) 0 idA).2.1 ∧
    (Writepatients (Writepatients dbEmpty (.valid samplePatientDoc) 0 idA).2.2
        (.valid samplePatientDoc) 0 idB).2.2.patients.length = 2 := by
  decide

/-- C1 (amended): `Writepatients` never looks an existing identifier up; every
successful call appends a new document under the driver-generated id, so two
calls with the same payload (same document-number identifier) return the two
distinct generated ids and grow the patients collection by two documents. -/
theorem c1_create_no_dedup (db : DB) (doc : PatientDoc) (t1 t2 : Nat)
    (ida idb : String) (ha : ida ≠ "") (hb : idb ≠ "") (hab : ida ≠ idb)
    (hfa : ∀ p ∈ db.patients, p.1 ≠ ida) (hfb : ∀ p ∈ db.patients, p.1 ≠ idb) :
    Writepatients db (.valid doc) t1 ida =
      ("success", some ida, { db with patients := db.patients ++ [(ida, ⟨doc, t1, t1⟩)] }) ∧
    Writepatients { db with patients := db.patients ++ [(ida, ⟨doc, t1, t1⟩)] }
        (.valid doc) t2 idb =
      ("success", some idb,
        { db with patients := (db.patients ++ [(ida, ⟨doc, t1, t1⟩)]) ++ [(idb, ⟨doc, t2, t2⟩)] }) ∧
    ((db.patients ++ [(ida, (⟨doc, t1, t1⟩ : StoredPatient))]) ++
        [(idb, (⟨doc, t2, t2⟩ : StoredPatient))]).length =
      db.patients.length + 2 := by
  refine ⟨writepatients_success db doc t1 ida ha hfa, ?_, by simp⟩
  have hfb2 : ∀ p ∈ db.patients ++ [(ida, (⟨doc, t1, t1⟩ : StoredPatient))], p.1 ≠ idb := by
    intro p hp
    rcases List.mem_append.mp hp with h1 | h2
    · exact hfb p h1
    · rw [List.mem_singleton.mp h2]
      exact hab
  exact writepatients_success _ doc t2 idb hb hfb2

/-- C1 amended-claim witness at a concrete database and payload. -/
theorem c1_create_no_dedup_witness :
    Writepatients dbEmpty (.valid samplePatientDoc) 0 idA =
      ("success", some idA,
        { dbEmpty with patients := dbEmpty.patients ++ [(idA, ⟨samplePatientDoc, 0, 0⟩)] }) ∧
    Writepatients { dbEmpty with patients := dbEmpty.patients ++ [(idA, ⟨samplePatientDoc, 0, 0⟩)] }
        (.valid samplePatientDoc) 0 idB =
      ("success", some idB,
        { dbEmpty with patients :=
            (dbEmpty.patients ++ [(idA, ⟨samplePatientDoc, 0, 0⟩)]) ++ [(idB, ⟨samplePatientDoc, 0, 0⟩)] }) ∧
    ((dbEmpty.patients ++ [(idA, (⟨samplePatientDoc, 0, 0⟩ : StoredPatient))]) ++
        [(idB, (⟨samplePatientDoc, 0, 0⟩ : StoredPatient))]).length =
      dbEmpty.patients.length + 2 :=
  c1_create_no_dedup dbEmpty samplePatientDoc 0 0 idA idB (by decide) (by decide)
    (by decide) (by decide) (by decide)

/-- A sample HTTP dispense body (all required fields of the request model). -/
def sampleDispenseBody : MedicationDispenseCreate :=
  { medication := "Amoxicilina 500mg", quantity := 20, daysSupply := 10,
    dosage := "una cada 8 horas", performer := "Dr Rodriguez",
    notes := none, timestamp := none }

/-- C2: evaluation at the failing input. The repository half of the claim
holds: for a well-formed id naming no stored patient the repository returns
the not-found status with no value and the medications collection unchanged.
The endpoint half fails: the handler compares against `patientNotFound` while
the repository says `patientsNotFound`, and the shadowed `status` module makes
the fallback branch raise, so the HTTP outcome is a framework 500, not 404. -/
theorem c2_dispense_missing_patient_eval :
    RegistermedicationsDispense dbEmpty idE (medicationDict sampleDispenseBody) 0 idD =
      ("patientsNotFound", none, dbEmpty) ∧
    (add_medication_dispense dbEmpty idE sampleDispenseBody 0 idD).1 =
      HttpOutcome.serverFailure
        (statusAttrMsg "patientsNotFound" "HTTP_500_INTERNAL_SERVER_ERROR") ∧
    (add_medication_dispense dbEmpty idE sampleDispenseBody 0 idD).1 ≠
      HttpOutcome.httpError 404 ∧
    (add_medication_dispense dbEmpty idE sampleDispenseBody 0 idD).2 = dbEmpty := by
  decide

/-- The success path of `RegistermedicationsDispense`: when the patient lookup
succeeds, the subject display builds, both numeric coercions succeed and the
generated id is fresh and nonempty, the dispense document (every field read
with a `.get` default) is appended and its id returned. -/
theorem register_success (db : DB) (pid : String) (sp : String × StoredPatient)
    (d : MedsData) (now : Nat) (fid : String) (disp : String) (qv dv : Rat)
    (hfound : GetpatientsById db pid = ("success", some sp))
    (hdisp : buildDisplay sp.2.doc = .ok disp)
    (hq : pyFloat (d.quantity.getD (.num 1)) = .ok qv)
    (hds : pyFloat (d.daysSupply.getD (.num 1)) = .ok dv)
    (hfresh : ∀ m ∈ db.medications, m.1 ≠ fid)
    (hfid : fid ≠ "") :
    RegistermedicationsDispense db pid d now fid =
      ("success", some fid,
        { db with medications := db.medications ++
            [(fid, { status := "completed", medicationText := d.medications.getD "",
                     subjectReference := "patients/" ++ pid, subjectDisplay := disp,
                     whenHandedOver := now, quantityValue := qv,
                     quantityUnit := d.unit.getD "unit", daysSupplyValue := dv,
                     performerDisplay := d.performer.getD "Unknown",
                     dosageText := d.dosage.getD "As prescribed",
                     noteText := d.notes.getD "", createdAt := now,
                     updatedAt := now })] }) := by
  unfold RegistermedicationsDispense RegistermedicationsDispenseTry insertOne
  rw [any_key_false db.medications fid hfresh]
  simp [hfound, hdisp, hq, hds, beq_eq_false_iff_ne.mpr hfid]

/-- The dispense dict of the C3 counterexample: a payload with no `dosage` key
(and no `medication` key mismatch in play, since it is handed straight to the
repository). -/
def mdNoDosage : MedsData :=
  { medications := some "Amoxicilina 500mg", quantity := some (.num 20),
    unit := some "tabletas", daysSupply := some (.num 10),
    performer := some "Dr Rodriguez", dosage := none, notes := some "" }

/-- C3 counterexample: for a stored patient with a well-formed name, a
dispense payload with no `dosage` field is not rejected —
`RegistermedicationsDispense` succeeds and writes one record whose dosage
instruction text is the default `As prescribed`. -/
theorem c3_counterexample :
    (RegistermedicationsDispense dbC idC mdNoDosage 7 idD).1 = "success" ∧
    (RegistermedicationsDispense dbC idC mdNoDosage 7 idD).2.2.medications.map
        (fun m => m.2.dosageText) = ["As prescribed"] ∧
    (RegistermedicationsDispense dbC idC mdNoDosage 7 idD).2.2.medications.length =
      dbC.medications.length + 1 := by
  decide

/-- C3 (amended): `RegistermedicationsDispense` reads every dispense field with
a `.get` default instead of rejecting absent fields: with `dosage` missing (and
the other preconditions of the success path holding) it succeeds and appends a
record whose dosage text is `As prescribed`. -/
theorem c3_missing_dosage_succeeds (db : DB) (pid : String)
    (sp : String × StoredPatient) (d : MedsData) (now : Nat) (fid : String)
    (disp : String) (qv dv : Rat)
    (hfound : GetpatientsById db pid = ("success", some sp))
    (hdisp : buildDisplay sp.2.doc = .ok disp)
    (hq : pyFloat (d.quantity.getD (.num 1)) = .ok qv)
    (hds : pyFloat (d.daysSupply.getD (.num 1)) = .ok dv)
    (hdos : d.dosage = none)
    (hfresh : ∀ m ∈ db.medications, m.1 ≠ fid)
    (hfid : fid ≠ "") :
    (RegistermedicationsDispense db pid d now fid).1 = "success" ∧
    (RegistermedicationsDispense db pid d now fid).2.2.medications =
      db.medications ++
        [(fid, { status := "completed", medicationText := d.medications.getD "",
                 subjectReference := "patients/" ++ pid, subjectDisplay := disp,
                 whenHandedOver := now, quantityValue := qv,
                 quantityUnit := d.unit.getD "unit", daysSupplyValue := dv,
                 performerDisplay := d.performer.getD "Unknown",
                 dosageText := "As prescribed", noteText := d.notes.getD "",
                 createdAt := now, updatedAt := now })] := by
  rw [register_success db pid sp d now fid disp qv dv hfound hdisp hq hds hfresh hfid]
  simp [hdos]

/-- C3 amended-claim witness at a concrete database and payload. -/
theorem c3_missing_dosage_succeeds_witness :
    (RegistermedicationsDispense dbC idC mdNoDosage 7 idD).1 = "success" ∧
    (RegistermedicationsDispense dbC idC mdNoDosage 7 idD).2.2.medications =
      dbC.medications ++
        [(idD, { status := "completed", medicationText := mdNoDosage.medications.getD "",
                 subjectReference := "patients/" ++ idC, subjectDisplay := "Mario Duarte",
                 whenHandedOver := 7, quantityValue := 20,
                 quantityUnit := mdNoDosage.unit.getD "unit", daysSupplyValue := 10,
                 performerDisplay := mdNoDosage.performer.getD "Unknown",
                 dosageText := "As prescribed", noteText := mdNoDosage.notes.getD "",
                 createdAt := 7, updatedAt := 7 })] :=
  c3_missing_dosage_succeeds dbC idC (idC, ⟨samplePatientDoc, 0, 0⟩) mdNoDosage 7 idD
    "Mario Duarte" 20 10 (by decide) rfl rfl rfl rfl (by decide) (by decide)

/-- C4: with the patient stored and exactly the dispenses `d1, d2, d3` (in
insertion order, with strictly increasing handover timestamps) referencing it,
`Getpatientsmedicationss` returns all of them most-recent-first. -/
theorem c4_list_sorted_desc (db : DB) (pid i1 i2 i3 : String)
    (d1 d2 d3 : DispenseDoc)
    (hp : (GetpatientsById db pid).1 = "success")
    (hf : db.medications.filter (fun m => m.2.subjectReference == "patients/" ++ pid) =
      [(i1, d1), (i2, d2), (i3, d3)])
    (h12 : d1.whenHandedOver < d2.whenHandedOver)
    (h23 : d2.whenHandedOver < d3.whenHandedOver) :
    Getpatientsmedicationss db pid =
      ("success", some [(i3, d3), (i2, d2), (i1, d1)]) := by
  have n12 : ¬ d2.whenHandedOver ≤ d1.whenHandedOver := not_le.mpr h12
  have n23 : ¬ d3.whenHandedOver ≤ d2.whenHandedOver := not_le.mpr h23
  have n13 : ¬ d3.whenHandedOver ≤ d1.whenHandedOver := not_le.mpr (h12.trans h23)
  unfold Getpatientsmedicationss GetpatientsmedicationssTry
  rw [hp, hf]
  simp [sortByWhenDesc, insertDesc, ge_iff_le, n12, n23, n13]

/-- A concrete dispense document for the C4 witness. -/
def dspC (t : Nat) : DispenseDoc :=
  { status := "completed", medicationText := "m",
    subjectReference := "patients/" ++ idC, subjectDisplay := "Mario Duarte",
    whenHandedOver := t, quantityValue := 1, quantityUnit := "unit",
    daysSupplyValue := 1, performerDisplay := "Unknown", dosageText := "d",
    noteText := "", createdAt := t, updatedAt := t }

/-- A database with the `idC` patient and three dispenses inserted at
timestamps 1 < 2 < 3. -/
def dbMeds : DB :=
  { patients := dbC.patients
    medications := [(idA, dspC 1), (idB, dspC 2), (idD, dspC 3)] }

/-- C4 witness at a concrete database. -/
theorem c4_list_sorted_desc_witness :
    Getpatientsmedicationss dbMeds idC =
      ("success", some [(idD, dspC 3), (idB, dspC 2), (idA, dspC 1)]) :=
  c4_list_sorted_desc dbMeds idC idA idB idD (dspC 1) (dspC 2) (dspC 3)
    (by decide) (by decide) (by decide) (by decide)

/-- C5: evaluation at the failing input. The repository half holds: listing
dispenses for a well-formed id naming no stored patient returns the not-found
status with no list. The endpoint half fails: the string mismatch
(`patientsNotFound` vs `patientNotFound`) and the shadowed `status` module turn
the outcome into a framework 500, not 404. -/
theorem c5_list_missing_patient_eval :
    Getpatientsmedicationss dbEmpty idE = ("patientsNotFound", none) ∧
    get_patient_medications dbEmpty idE =
      HttpOutcome.serverFailure
        (statusAttrMsg "patientsNotFound" "HTTP_500_INTERNAL_SERVER_ERROR") ∧
    get_patient_medications dbEmpty idE ≠ HttpOutcome.httpError 404 := by
  decide

/-- A malformed-id status never equals a short status string. -/
theorem invalidIdStatusNe (id t : String) (ht : t.length < 25) :
    "error: " ++ ("invalid ObjectId: " ++ id) ≠ t := by
  apply ne_of_length_ne
  rw [String.length_append, String.length_append]
  have h1 : ("error: " : String).length = 7 := rfl
  have h2 : ("invalid ObjectId: " : String).length = 18 := rfl
  omega

/-- C6: `GetpatientsById` returns a generic `error:` status (distinct from
`notFound` and `success`) on a malformed ObjectId, `notFound` on a well-formed
id naming no stored patient, and `success` with the stored document exactly
when the id names a stored patient. -/
theorem c6_get_by_id_trichotomy (db : DB) (id : String) :
    (validObjectId id = false →
      GetpatientsById db id = ("error: " ++ ("invalid ObjectId: " ++ id), none)) ∧
    (validObjectId id = true → findPatientDoc db id = none →
      GetpatientsById db id = ("notFound", none)) ∧
    (∀ p, validObjectId id = true → findPatientDoc db id = some p →
      GetpatientsById db id = ("success", some p)) ∧
    ((GetpatientsById db id).1 = "success" →
      validObjectId id = true ∧ ∃ p, findPatientDoc db id = some p) ∧
    (validObjectId id = false →
      (GetpatientsById db id).1 ≠ "notFound" ∧ (GetpatientsById db id).1 ≠ "success") := by
  have herr : validObjectId id = false →
      GetpatientsById db id = ("error: " ++ ("invalid ObjectId: " ++ id), none) := by
    intro h
    unfold GetpatientsById GetpatientsByIdTry
    simp [h]
  refine ⟨herr, ?_, ?_, ?_, ?_⟩
  · intro h hn
    unfold GetpatientsById GetpatientsByIdTry
    simp [h, hn]
  · intro p h hp
    unfold GetpatientsById GetpatientsByIdTry
    simp [h, hp]
  · intro hs
    cases hvo : validObjectId id with
    | false =>
      rw [herr hvo] at hs
      exact absurd hs (invalidIdStatusNe id "success" (by decide))
    | true =>
      refine ⟨rfl, ?_⟩
      cases hp : findPatientDoc db id with
      | none =>
        unfold GetpatientsById GetpatientsByIdTry at hs
        rw [hp] at hs
        simp [hvo] at hs
      | some p => exact ⟨p, rfl⟩
  · intro h
    rw [herr h]
    exact ⟨invalidIdStatusNe id "notFound" (by decide),
      invalidIdStatusNe id "success" (by decide)⟩

/-- C6 witness: the three branches at concrete inputs. -/
theorem c6_get_by_id_trichotomy_witness :
    GetpatientsById dbC "zz" = ("error: " ++ ("invalid ObjectId: " ++ "zz"), none) ∧
    GetpatientsById dbC idA = ("notFound", none) ∧
    GetpatientsById dbC idC = ("success", some (idC, ⟨samplePatientDoc, 0, 0⟩)) :=
  ⟨(c6_get_by_id_trichotomy dbC "zz").1 (by decide),
    (c6_get_by_id_trichotomy dbC idA).2.1 (by decide) (by decide),
    (c6_get_by_id_trichotomy dbC idC).2.2.1 (idC, ⟨samplePatientDoc, 0, 0⟩)
      (by decide) (by decide)⟩

/-- C7: round-trip — a payload the FHIR validator accepts, created under a
fresh well-formed generated id, is fetched back by that id with its identifier
and name lists unchanged. -/
theorem c7_roundtrip (db : DB) (doc : PatientDoc) (now : Nat) (fid : String)
    (hv : validObjectId fid = true)
    (hfresh : ∀ p ∈ db.patients, p.1 ≠ fid) :
    (Writepatients db (.valid doc) now fid).1 = "success" ∧
    (Writepatients db (.valid doc) now fid).2.1 = some fid ∧
    ∃ sp : StoredPatient,
      GetpatientsById (Writepatients db (.valid doc) now fid).2.2 fid =
        ("success", some (fid, sp)) ∧
      sp.doc.identifier = doc.identifier ∧ sp.doc.name = doc.name := by
  have hfid : fid ≠ "" := by
    intro h
    rw [h] at hv
    exact absurd hv (by decide)
  rw [writepatients_success db doc now fid hfid hfresh]
  refine ⟨rfl, rfl, ⟨doc, now, now⟩, ?_, rfl, rfl⟩
  unfold GetpatientsById GetpatientsByIdTry findPatientDoc
  simp only [hv, if_true]
  rw [find?_append_last db.patients fid _ hfresh]

/-- C7 witness at a concrete payload and database. -/
theorem c7_roundtrip_witness :
    (Writepatients dbEmpty (.valid samplePatientDoc) 0 idA).1 = "success" ∧
    (Writepatients dbEmpty (.valid samplePatientDoc) 0 idA).2.1 = some idA ∧
    ∃ sp : StoredPatient,
      GetpatientsById (Writepatients dbEmpty (.valid samplePatientDoc) 0 idA).2.2 idA =
        ("success", some (idA, sp)) ∧
      sp.doc.identifier = samplePatientDoc.identifier ∧
      sp.doc.name = samplePatientDoc.name :=
  c7_roundtrip dbEmpty samplePatientDoc 0 idA (by decide) (by decide)

/-- C8: evaluation of `add_patient`. Success does return 201 with the new id,
but a validation failure is never mapped to 422: the handler evaluates
`status.HTTP_422_UNPROCESSABLE_ENTITY` on the local status string (which
shadows the fastapi `status` module), the raised AttributeError falls into the
catch-all, which trips over the same shadowing, and the framework answers 500. -/
theorem c8_add_patient_eval :
    (add_patient dbEmpty (.valid samplePatientDoc) 0 idA).1 = HttpOutcome.ok 201 ∧
    (add_patient dbEmpty (.invalid "patients validation failed") 0 idA).1 =
      HttpOutcome.serverFailure
        (statusAttrMsg "errorValidating: patients validation failed" "HTTP_400_BAD_REQUEST") ∧
    (add_patient dbEmpty (.invalid "patients validation failed") 0 idA).1 ≠
      HttpOutcome.httpError 422 ∧
    (add_patient dbEmpty (.invalid "patients validation failed") 0 idA).1 ≠
      HttpOutcome.httpError 400 := by
  decide

/-- C9: every repository operation is total at its boundary — its try body
either produces the (status, value) result the wrapper returns unchanged, or
raises, in which case the wrapper catches and returns the error-status string
paired with `None` (and, for the writers, the unchanged database). -/
theorem c9_repo_total (db : DB) (id sys val pid fid : String)
    (payload : PatientPayload) (d : MedsData) (now : Nat) :
    ((∃ r, GetpatientsByIdTry db id = .ok r ∧ GetpatientsById db id = r) ∨
      (∃ e, GetpatientsByIdTry db id = .error e ∧
        GetpatientsById db id = ("error: " ++ e, none))) ∧
    ((∃ r, WritepatientsTry db payload now fid = .ok r ∧
        Writepatients db payload now fid = r) ∨
      (∃ e, WritepatientsTry db payload now fid = .error e ∧
        Writepatients db payload now fid = ("errorValidating: " ++ e, none, db))) ∧
    ((∃ r, GetpatientsByIdentifierTry db sys val = .ok r ∧
        GetpatientsByIdentifier db sys val = r) ∨
      (∃ e, GetpatientsByIdentifierTry db sys val = .error e ∧
        GetpatientsByIdentifier db sys val = ("error: " ++ e, none))) ∧
    ((∃ r, RegistermedicationsDispenseTry db pid d now fid = .ok r ∧
        RegistermedicationsDispense db pid d now fid = r) ∨
      (∃ e, RegistermedicationsDispenseTry db pid d now fid = .error e ∧
        RegistermedicationsDispense db pid d now fid = ("error: " ++ e, none, db))) ∧
    ((∃ r, GetpatientsmedicationssTry db pid = .ok r ∧
        Getpatientsmedicationss db pid = r) ∨
      (∃ e, GetpatientsmedicationssTry db pid = .error e ∧
        Getpatientsmedicationss db pid = ("error: " ++ e, none))) := by
  refine ⟨?_, ?_, ?_, ?_, ?_⟩
  · cases h : GetpatientsByIdTry db id with
    | ok r => exact Or.inl ⟨r, rfl, by unfold GetpatientsById; rw [h]⟩
    | error e => exact Or.inr ⟨e, rfl, by unfold GetpatientsById; rw [h]⟩
  · cases h : WritepatientsTry db payload now fid with
    | ok r => exact Or.inl ⟨r, rfl, by unfold Writepatients; rw [h]⟩
    | error e => exact Or.inr ⟨e, rfl, by unfold Writepatients; rw [h]⟩
  · cases h : GetpatientsByIdentifierTry db sys val with
    | ok r => exact Or.inl ⟨r, rfl, by unfold GetpatientsByIdentifier; rw [h]⟩
    | error e => exact Or.inr ⟨e, rfl, by unfold GetpatientsByIdentifier; rw [h]⟩
  · cases h : RegistermedicationsDispenseTry db pid d now fid with
    | ok r => exact Or.inl ⟨r, rfl, by unfold RegistermedicationsDispense; rw [h]⟩
    | error e => exact Or.inr ⟨e, rfl, by unfold RegistermedicationsDispense; rw [h]⟩
  · cases h : GetpatientsmedicationssTry db pid with
    | ok r => exact Or.inl ⟨r, rfl, by unfold Getpatientsmedicationss; rw [h]⟩
    | error e => exact Or.inr ⟨e, rfl, by unfold Getpatientsmedicationss; rw [h]⟩

/-- Whether a patient document has the name shape the dispense construction
indexes: a first name entry with at least one given part and a family part. -/
def nameWellFormed (pd : PatientDoc) : Bool :=
  match pd.name with
  | [] => false
  | n :: _ => !n.given.isEmpty && n.family.isSome

/-- On a patient document without the indexed name shape, the subject display
construction raises. -/
theorem buildDisplay_error_of_malformed (pd : PatientDoc)
    (h : nameWellFormed pd = false) :
    buildDisplay pd = .error "list index out of range" ∨
    buildDisplay pd = .error "KeyError: family" := by
  unfold nameWellFormed at h
  cases hn : pd.name with
  | nil =>
    left
    simp [buildDisplay, hn]
  | cons n rest =>
    rw [hn] at h
    have h2 : (!n.given.isEmpty && n.family.isSome) = false := h
    cases hg : n.given with
    | nil =>
      left
      simp [buildDisplay, hn, hg]
    | cons g gs =>
      rw [hg] at h2
      simp at h2
      cases hfam : n.family with
      | none =>
        right
        simp [buildDisplay, hn, hg, hfam]
      | some f =>
        rw [hfam] at h2
        simp at h2

/-- C10: for a stored patient whose document lacks a name entry with a given
part and a family part, registering a dispense cannot succeed: the subject
display construction raises before the insert, the catch-all reports an
`error:` status, no id is returned and the database is unchanged. -/
theorem c10_name_required (db : DB) (pid : String) (sp : String × StoredPatient)
    (d : MedsData) (now : Nat) (fid : String)
    (hfound : GetpatientsById db pid = ("success", some sp))
    (hname : nameWellFormed sp.2.doc = false) :
    (RegistermedicationsDispense db pid d now fid).1 ≠ "success" ∧
    (RegistermedicationsDispense db pid d now fid).2.1 = none ∧
    (RegistermedicationsDispense db pid d now fid).2.2 = db := by
  rcases buildDisplay_error_of_malformed sp.2.doc hname with hbd | hbd
  · have hreg : RegistermedicationsDispense db pid d now fid =
        ("error: " ++ "list index out of range", none, db) := by
      unfold RegistermedicationsDispense RegistermedicationsDispenseTry
      simp [hfound, hbd]
    rw [hreg]
    exact ⟨errStatusNeSuccess _, rfl, rfl⟩
  · have hreg : RegistermedicationsDispense db pid d now fid =
        ("error: " ++ "KeyError: family", none, db) := by
      unfold RegistermedicationsDispense RegistermedicationsDispenseTry
      simp [hfound, hbd]
    rw [hreg]
    exact ⟨errStatusNeSuccess _, rfl, rfl⟩

/-- A stored patient document with no name entry at all. -/
def patientNoName : PatientDoc :=
  { identifier := [{ system := "doc", value := "999" }], name := [] }

/-- A database holding only the nameless patient at `idB`. -/
def dbNoName : DB :=
  { patients := [(idB, { doc := patientNoName, createdAt := 0, updatedAt := 0 })]
    medications := [] }

/-- C10 witness at a concrete nameless patient. -/
theorem c10_name_required_witness :
    (RegistermedicationsDispense dbNoName idB mdNoDosage 0 idD).1 ≠ "success" ∧
    (RegistermedicationsDispense dbNoName idB mdNoDosage 0 idD).2.1 = none ∧
    (RegistermedicationsDispense dbNoName idB mdNoDosage 0 idD).2.2 = dbNoName :=
  c10_name_required dbNoName idB (idB, ⟨patientNoName, 0, 0⟩) mdNoDosage 0 idD
    (by decide) (by decide)

end HL7

